import Mathlib

/-!
Verification of the Nutrition-Facts chat assistant pipeline
(`App/nutrichatassistant.py`).

The module is a thin orchestration layer over three external services
(Elasticsearch, a sentence encoder, and the OpenAI chat API).  We embed the
pure logic of the module directly; each external call is a field of an
explicit environment record `Env`, so every repository function becomes a
pure Lean function of its inputs and the environment.  Latency values are
modelled over `ℚ`; the cost arithmetic is modelled twice — idealised over
`ℚ`, and exactly, as IEEE-754 binary64 (Python float) arithmetic over
integer mantissa/exponent pairs; Python strings over `String`
(numeric record fields are represented by the string they render to in an
f-string).  Python exceptions are modelled with `Except PyErr`.
-/

namespace NutriChat

/-- Token-usage counters as returned by the chat API
(`response.usage.*`, mirrored into the `tokens` dict of `llm`). -/
structure Tokens where
  prompt_tokens : ℕ
  completion_tokens : ℕ
  total_tokens : ℕ
  deriving DecidableEq, Repr

/-- A retrieved nutrition record (`hit["_source"]`).  Field values are the
strings they render to inside the f-string of `build_prompt`. -/
structure NutritionRecord where
  Food : String
  Measure : String
  Grams : String
  Calories : String
  Protein : String
  Fat : String
  SatFat : String
  Fiber : String
  Carbs : String
  Category : String
  id : String
  deriving DecidableEq, Repr

/-- `{"term": {field: value}}` filter clause of an Elasticsearch query. -/
structure TermFilter where
  fld : String
  value : String
  deriving DecidableEq, Repr

/-- The `knn` clause built by `elastic_search_knn` (lines 48-54). -/
structure KnnQuery where
  field : String
  query_vector : List ℚ
  k : ℕ
  num_candidates : ℕ
  filter : TermFilter
  deriving DecidableEq, Repr

/-- The keyword-search body built by `elastic_search_text` (lines 18-42):
`size`, a best-fields `multi_match` over `fields`, and a category filter. -/
structure TextQuery where
  size : ℕ
  query : String
  fields : List String
  type : String
  filter : TermFilter
  deriving DecidableEq, Repr

/-- A request body handed to `es_client.search`. -/
inductive SearchBody where
  | text (body : TextQuery)
  | knn (body : KnnQuery) (source : List String)
  deriving DecidableEq, Repr

/-- One element of the `messages` list of a chat-completions request. -/
structure ChatMsg where
  role : String
  content : String
  deriving DecidableEq, Repr

/-- The request built by `llm` (lines 95-98): a model name and messages. -/
structure ChatRequest where
  model : String
  messages : List ChatMsg
  deriving DecidableEq, Repr

/-- What `llm` reads off a chat response: the first choice's content, the
usage counters, and the measured wall-clock latency of the call. -/
structure ChatResponse where
  content : String
  usage : Tokens
  elapsed : ℚ
  deriving DecidableEq, Repr

/-- A Python value produced by `json.loads`. -/
inductive PyJson where
  | str (s : String)
  | num (q : ℚ)
  | bool (b : Bool)
  | null
  | arr (elems : List PyJson)
  | obj (fields : List (String × PyJson))

/-- Python exceptions that can escape the embedded functions.
(`json.JSONDecodeError` is caught inside `evaluate_relevance` and therefore
never appears here.) -/
inductive PyErr where
  | keyError (k : String)
  | typeError
  deriving DecidableEq, Repr

/-- The external world: the Elasticsearch client (already projected to the
list of `_source` records of the hits), the sentence encoder, the chat API,
and `json.loads` (which either fails with a `JSONDecodeError` or produces a
value). -/
structure Env where
  esSearch : String → SearchBody → List NutritionRecord
  encode : String → List ℚ
  chat : ChatRequest → ChatResponse
  jsonLoads : String → Except Unit PyJson

/-- The dict returned by `get_answer` (lines 165-178). -/
structure AnswerReport where
  answer : String
  response_time : ℚ
  relevance : PyJson
  relevance_explanation : PyJson
  model_used : String
  prompt_tokens : ℕ
  completion_tokens : ℕ
  total_tokens : ℕ
  eval_prompt_tokens : ℕ
  eval_completion_tokens : ℕ
  eval_total_tokens : ℕ
  openai_cost : ℚ

/-! ### Python string helpers -/

/-- The whitespace set of Python `str.strip()` (CPython's
`Py_UNICODE_ISSPACE`): tab through carriage return, the information
separators 0x1c-0x1f, space, next-line, no-break space, Ogham space mark,
the en-quad..hair-space range, line and paragraph separators, narrow
no-break space, medium mathematical space and ideographic space. -/
def isPySpace (c : Char) : Bool :=
  ('\x09' ≤ c && c ≤ '\x0d') || ('\x1c' ≤ c && c ≤ '\x1f') || c = ' ' ||
  c = '\u0085' || c = '\u00a0' || c = '\u1680' ||
  ('\u2000' ≤ c && c ≤ '\u200a') || c = '\u2028' || c = '\u2029' ||
  c = '\u202f' || c = '\u205f' || c = '\u3000'

/-- `str.strip()` on the underlying character list. -/
def stripChars (l : List Char) : List Char :=
  ((l.dropWhile isPySpace).reverse.dropWhile isPySpace).reverse

/-- Python `str.strip()`. -/
def pyStrip (s : String) : String :=
  ⟨stripChars s.data⟩

/-! ### Retriever (`elastic_search_text`, `elastic_search_knn`) -/

/-- The field list of the keyword search (lines 25-35). -/
def textSearchFields : List String :=
  ["Food^3", "Measure", "Grams", "Calories", "Protein", "Fat", "SatFat",
   "Fiber", "Carbs"]

/-- `elastic_search_text` (lines 17-45): best-fields multi-match over the
boosted field list, filtered to exact `Category` match, size 5. -/
def elastic_search_text (env : Env) (query category : String)
    (index_name : String := "nutrition-facts") : List NutritionRecord :=
  env.esSearch index_name
    (.text ⟨5, query, textSearchFields, "best_fields", ⟨"Category", category⟩⟩)

/-- The `knn` dict of `elastic_search_knn` (lines 48-54). -/
def knnClause (field : String) (vector : List ℚ) (category : String) :
    KnnQuery :=
  ⟨field, vector, 5, 10000, ⟨"Category", category⟩⟩

/-- The `_source` projection list of the knn search (lines 58-59). -/
def knnSourceFields : List String :=
  ["Food", "Measure", "Grams", "Calories", "Protein", "Fat", "SatFat",
   "Fiber", "Carbs", "Category", "id"]

/-- `elastic_search_knn` (lines 47-63). -/
def elastic_search_knn (env : Env) (field : String) (vector : List ℚ)
    (category : String) (index_name : String := "nutrition-facts") :
    List NutritionRecord :=
  env.esSearch index_name (.knn (knnClause field vector category) knnSourceFields)

/-! ### Prompt builder (`build_prompt`) -/

/-- The per-record block of `build_prompt`'s context (the f-string of
lines 78-87; no trailing newline after the Category line). -/
def docBlock (doc : NutritionRecord) : String :=
  "Food: " ++ doc.Food ++ "\n" ++
  "Measure: " ++ doc.Measure ++ "\n" ++
  "Nutritional Facts:\n" ++
  "- Calories: " ++ doc.Calories ++ "\n" ++
  "- Protein: " ++ doc.Protein ++ "g\n" ++
  "- Fat: " ++ doc.Fat ++ "g\n" ++
  "- Saturated Fat: " ++ doc.SatFat ++ "g\n" ++
  "- Fiber: " ++ doc.Fiber ++ "g\n" ++
  "- Carbs: " ++ doc.Carbs ++ "g\n" ++
  "Category: " ++ doc.Category

/-- The fixed text of the prompt template (lines 66-74, after the
template's own `.strip()`) up to the `{question}` placeholder. -/
def promptPre : String :=
  "You're a nutritionist working as a nutrition facts chat assistant. Answer the QUESTION based on the CONTEXT from the nutrition database.\nUse only the facts from the CONTEXT when answering the QUESTION. Be specific about measurements and nutritional values.\n\nQUESTION: "

/-- The fixed text between the `{question}` and `{context}` placeholders
(note the trailing space after `CONTEXT:` in the source). -/
def promptMid : String :=
  "\n\nCONTEXT: \n"

/-- Python `"\n\n".join(...)`: the joined string with the separator
between consecutive elements and nothing around them. -/
def joinContext : List String → String
  | [] => ""
  | [a] => a
  | a :: rest => a ++ "\n\n" ++ joinContext rest

/-- `build_prompt` (lines 65-91): the stripped template with the question
and the blank-line-joined record blocks substituted, then `.strip()`-ped
again (line 91). -/
def build_prompt (query : String) (search_results : List NutritionRecord) :
    String :=
  let context := joinContext (search_results.map docBlock)
  pyStrip (promptPre ++ query ++ promptMid ++ context)

/-! ### Cost accountant (`calculate_openai_cost`) -/

/-- `calculate_openai_cost` (lines 141-149).  Python float literals are
embedded as the exact rationals they denote in the source text. -/
def calculate_openai_cost (model_choice : String) (tokens : Tokens) : ℚ :=
  if model_choice = "openai/gpt-3.5-turbo" then
    ((tokens.prompt_tokens : ℚ) * 0.0015 + (tokens.completion_tokens : ℚ) * 0.002) / 1000
  else if model_choice = "openai/gpt-4o" ∨ model_choice = "openai/gpt-4o-mini" then
    ((tokens.prompt_tokens : ℚ) * 0.03 + (tokens.completion_tokens : ℚ) * 0.06) / 1000
  else
    0

/-- The model identifiers present in the rate table of
`calculate_openai_cost` (the strings tested on lines 144 and 146). -/
def knownModels : List String :=
  ["openai/gpt-3.5-turbo", "openai/gpt-4o", "openai/gpt-4o-mini"]

/-! ### IEEE-754 binary64 semantics of the cost arithmetic

Python evaluates lines 141-149 in binary64 floating point.  A nonnegative
finite double is represented here as an integer pair `(m, E) : ℕ × ℤ`
denoting the exact value `m * 2 ^ E`; every operation computes the exact
integer result and applies one round-to-nearest-ties-to-even step, which
is the IEEE-754 semantics.  The model covers the nonnegative normal range
(all values arising here); sub-normal underflow and overflow to infinity
are outside its scope. -/

/-- Floor of log2 on positive naturals, by fuel-bounded halving (the fuel
`n` itself always suffices). -/
def natLog2Aux : ℕ → ℕ → ℕ
  | 0, _ => 0
  | f+1, n => if n ≤ 1 then 0 else natLog2Aux f (n / 2) + 1

/-- `⌊log2 n⌋` for `n ≥ 1` (and 0 at 0). -/
def natLog2 (n : ℕ) : ℕ := natLog2Aux n n

/-- Round `num / den` (with `den > 0`) to the nearest natural, ties to
even. -/
def rne (num den : ℕ) : ℕ :=
  let q := num / den
  let r := num % den
  if 2 * r < den then q
  else if den < 2 * r then q + 1
  else if q % 2 = 0 then q else q + 1

/-- Round the positive rational `a / b` to the nearest binary64 value
`(n, E)`: the exponent of the leading bit is found via `natLog2` (the
`2 ^ 1200` pre-scaling keeps the argument `≥ 1` throughout the double
range), and the 53-bit significand is rounded to nearest, ties to even. -/
def roundMantissa (a b : ℕ) : ℕ × ℤ :=
  let e : ℤ := (natLog2 (a * 2 ^ 1200 / b) : ℤ) - 1200
  let shift : ℤ := 52 - e
  let n := if 0 ≤ shift then rne (a * 2 ^ shift.toNat) b
           else rne a (b * 2 ^ (-shift).toNat)
  (n, e - 52)

/-- Round the exact value `m * 2 ^ E` to binary64. -/
def roundPair (m : ℕ) (E : ℤ) : ℕ × ℤ :=
  if m = 0 then (0, 0)
  else if 0 ≤ E then roundMantissa (m * 2 ^ E.toNat) 1
  else roundMantissa m (2 ^ (-E).toNat)

/-- The binary64 value denoted by the decimal literal `a / b` — what the
Python source text `0.03`, `0.0015`, ... denotes at run time. -/
def dblOfRat (a b : ℕ) : ℕ × ℤ :=
  if a = 0 then (0, 0) else roundMantissa a b

/-- Binary64 multiplication: exact product, one rounding. -/
def mulFP (x y : ℕ × ℤ) : ℕ × ℤ := roundPair (x.1 * y.1) (x.2 + y.2)

/-- Binary64 addition: exact sum over the common exponent, one rounding. -/
def addFP (x y : ℕ × ℤ) : ℕ × ℤ :=
  let E := min x.2 y.2
  roundPair (x.1 * 2 ^ (x.2 - E).toNat + y.1 * 2 ^ (y.2 - E).toNat) E

/-- Binary64 division: the exact quotient rounded once. -/
def divFP (x y : ℕ × ℤ) : ℕ × ℤ :=
  if x.1 = 0 then (0, 0)
  else
    let D := x.2 - y.2
    if 0 ≤ D then roundMantissa (x.1 * 2 ^ D.toNat) y.1
    else roundMantissa x.1 (y.1 * 2 ^ (-D).toNat)

/-- The double a Python `int` converts to when it meets a float (exact up
to `2 ^ 53`, rounded beyond). -/
def fpOfNat (n : ℕ) : ℕ × ℤ := dblOfRat n 1

/-- The exact rational value of a represented double. -/
def fpVal (x : ℕ × ℤ) : ℚ :=
  if 0 ≤ x.2 then (x.1 : ℚ) * 2 ^ x.2.toNat else (x.1 : ℚ) / 2 ^ (-x.2).toNat

/-- The doubles denoted by the rate literals of lines 145 and 147, by the
divisor literal `1000`, and by the literal `0.0042`. -/
def d0015 : ℕ × ℤ := dblOfRat 15 10000

/-- The double denoted by `0.002`. -/
def d002 : ℕ × ℤ := dblOfRat 2 1000

/-- The double denoted by `0.03`. -/
def d003 : ℕ × ℤ := dblOfRat 3 100

/-- The double denoted by `0.06`. -/
def d006 : ℕ × ℤ := dblOfRat 6 100

/-- The double the `int` literal `1000` converts to. -/
def d1000 : ℕ × ℤ := fpOfNat 1000

/-- The double denoted by `0.0042`. -/
def d0042 : ℕ × ℤ := dblOfRat 42 10000

/-- `calculate_openai_cost` (lines 141-149) under Python's actual
binary64 float semantics: each `int` operand is converted to a double and
every arithmetic step rounds once.  Unknown models keep the `int` `0` of
line 142 (value zero). -/
def calculate_openai_cost64 (model_choice : String) (tokens : Tokens) :
    ℕ × ℤ :=
  if model_choice = "openai/gpt-3.5-turbo" then
    divFP (addFP (mulFP (fpOfNat tokens.prompt_tokens) d0015)
      (mulFP (fpOfNat tokens.completion_tokens) d002)) d1000
  else if model_choice = "openai/gpt-4o" ∨ model_choice = "openai/gpt-4o-mini" then
    divFP (addFP (mulFP (fpOfNat tokens.prompt_tokens) d003)
      (mulFP (fpOfNat tokens.completion_tokens) d006)) d1000
  else
    (0, 0)

/-! ### Generation client (`llm`) -/

/-- Python `str.split(sep)` for a one-character separator, on the
underlying character list.  Splitting never yields an empty list:
`''.split('/') == ['']`. -/
def pySplit (sep : Char) : List Char → List (List Char)
  | [] => [[]]
  | c :: rest =>
      match pySplit sep rest with
      | [] => [[]]
      | seg :: segs =>
          if c = sep then [] :: seg :: segs else (c :: seg) :: segs

/-- `model_choice.split('/')[-1]` (line 96): the trailing segment of the
identifier after the last slash. -/
def lastSegment (model_choice : String) : String :=
  ⟨(pySplit '/' model_choice.data).getLast!⟩

/-- The request built on lines 95-98: `model_choice.split('/')[-1]` as the
model name and a single user message carrying the prompt. -/
def chatRequest (prompt model_choice : String) : ChatRequest :=
  ⟨lastSegment model_choice, [⟨"user", prompt⟩]⟩

/-- `llm` (lines 93-109): answer text, the token-usage dict, and the
wall-clock latency of the call. -/
def llm (env : Env) (prompt model_choice : String) : String × Tokens × ℚ :=
  let response := env.chat (chatRequest prompt model_choice)
  (response.content, response.usage, response.elapsed)

/-! ### Relevance evaluator (`evaluate_relevance`) -/

/-- The judge prompt of `evaluate_relevance` (lines 112-132): the stripped
triple-quoted template with `{question}` and `{answer}` substituted by
`str.format` (which also rewrites the doubled braces around the JSON
schema to single braces).  The template body keeps its 4-space source
indentation on every line after the first; `.strip()` only removes the
leading and trailing whitespace of the whole string. -/
def judgePrompt (question answer : String) : String :=
  "You are an expert evaluator for a Nutrition Facts Retrieval-Augmented Generation (RAG) system.\n    Your task is to analyze the relevance of the generated answer to the given nutrition question.\n    Based on the relevance and accuracy of the nutritional information provided, classify it\n    as \"NON_RELEVANT\", \"PARTLY_RELEVANT\", or \"RELEVANT\".\n\n    Here is the data for evaluation:\n\n    Question: "
  ++ question
  ++ "\n    Generated Answer: "
  ++ answer
  ++ "\n\n    Please analyze the content and context of the generated answer in relation to the question\n    and provide your evaluation in parsable JSON without using code blocks:\n\n    \x7b\n      \"Relevance\": \"NON_RELEVANT\" | \"PARTLY_RELEVANT\" | \"RELEVANT\",\n      \"Explanation\": \"[Provide a brief explanation for your evaluation]\"\n    \x7d"

/-- Python subscript `v[k]` on a value returned by `json.loads`: a
`KeyError` when `v` is a dict without key `k`, a `TypeError` when `v` is
not a dict at all (string/int subscripts on lists, strings, numbers, and
`None` all raise `TypeError` for a string key). -/
def PyJson.getItem (v : PyJson) (k : String) : Except PyErr PyJson :=
  match v with
  | .obj fields =>
      match fields.lookup k with
      | some x => .ok x
      | none => .error (.keyError k)
  | _ => .error .typeError

/-- `evaluate_relevance` (lines 111-139).  The `try` block catches only
`json.JSONDecodeError` (line 138); a failing key lookup on a successfully
parsed value escapes as an uncaught exception, modelled by
`Except.error`. -/
def evaluate_relevance (env : Env) (question answer : String) :
    Except PyErr (PyJson × PyJson × Tokens) :=
  let result := llm env (judgePrompt question answer) "openai/gpt-4o-mini"
  let evaluation := result.1
  let tokens := result.2.1
  match env.jsonLoads evaluation with
  | .error _ => .ok (.str "UNKNOWN", .str "Failed to parse evaluation", tokens)
  | .ok json_eval =>
      match json_eval.getItem "Relevance" with
      | .error e => .error e
      | .ok rel =>
          match json_eval.getItem "Explanation" with
          | .error e => .error e
          | .ok expl => .ok (rel, expl, tokens)

/-! ### Pipeline orchestrator (`get_answer`) -/

/-- The retrieval branch of `get_answer` (lines 152-156): vector search
exactly when `search_type == 'Vector'`, keyword search otherwise. -/
def retrieved (env : Env) (query category search_type : String) :
    List NutritionRecord :=
  if search_type = "Vector" then
    elastic_search_knn env "full_vector" (env.encode query) category
  else
    elastic_search_text env query category

/-- Lines 158-177 of `get_answer`: prompt building, answer generation,
evaluation, cost, and assembly of the result dict from the retrieved
records. -/
def answer_pipeline (env : Env) (query model_choice : String)
    (search_results : List NutritionRecord) : Except PyErr AnswerReport :=
  let prompt := build_prompt query search_results
  let gen := llm env prompt model_choice
  let answer := gen.1
  let tokens := gen.2.1
  let response_time := gen.2.2
  match evaluate_relevance env query answer with
  | .error e => .error e
  | .ok (relevance, explanation, eval_tokens) =>
      let openai_cost := calculate_openai_cost model_choice tokens
      .ok
        { answer := answer
          response_time := response_time
          relevance := relevance
          relevance_explanation := explanation
          model_used := model_choice
          prompt_tokens := tokens.prompt_tokens
          completion_tokens := tokens.completion_tokens
          total_tokens := tokens.total_tokens
          eval_prompt_tokens := eval_tokens.prompt_tokens
          eval_completion_tokens := eval_tokens.completion_tokens
          eval_total_tokens := eval_tokens.total_tokens
          openai_cost := openai_cost }

/-- `get_answer` (lines 151-177). -/
def get_answer (env : Env) (query category model_choice search_type : String) :
    Except PyErr AnswerReport :=
  answer_pipeline env query model_choice (retrieved env query category search_type)

/-- The chat request issued by the answer-generation call of `get_answer`
(the `llm` call on line 159). -/
def genRequest (env : Env) (query category model_choice search_type : String) :
    ChatRequest :=
  chatRequest (build_prompt query (retrieved env query category search_type))
    model_choice

/-! ### Concrete environments used to instantiate the theorems -/

/-- An environment whose judge model replies `not json`, which
`json.loads` rejects. -/
def envParseFail : Env where
  esSearch := fun _ _ => []
  encode := fun _ => []
  chat := fun _ => ⟨"not json", ⟨25, 7, 32⟩, 1⟩
  jsonLoads := fun s => if s = "not json" then .error () else .ok .null

/-- An environment whose judge model replies with the valid JSON object
`\x7b\x7d` (no keys at all), which `json.loads` parses to an empty dict. -/
def envEmptyObj : Env where
  esSearch := fun _ _ => []
  encode := fun _ => []
  chat := fun _ => ⟨"\x7b\x7d", ⟨25, 7, 32⟩, 1⟩
  jsonLoads := fun s => if s = "\x7b\x7d" then .ok (.obj []) else .error ()

/-- An inert environment (empty search results, judge output malformed). -/
def envPlain : Env where
  esSearch := fun _ _ => []
  encode := fun _ => []
  chat := fun _ => ⟨"", ⟨0, 0, 0⟩, 0⟩
  jsonLoads := fun _ => .error ()

/-- An environment for a full successful pipeline run: the judge model
(`gpt-4o-mini` after prefix stripping) replies with a well-formed verdict,
the answering model consumes 100 prompt and 20 completion tokens. -/
def envHappy : Env where
  esSearch := fun _ _ => []
  encode := fun _ => []
  chat := fun req =>
    if req.model = "gpt-4o-mini" then
      ⟨"\x7bjudged\x7d", ⟨9, 4, 13⟩, 2⟩
    else
      ⟨"an answer", ⟨100, 20, 120⟩, 3⟩
  jsonLoads := fun _ =>
    .ok (.obj [("Relevance", .str "RELEVANT"), ("Explanation", .str "ok")])

/-- The report produced by `get_answer` on `envHappy` with model
`openai/gpt-4o` and keyword search. -/
def reportHappy : AnswerReport where
  answer := "an answer"
  response_time := 3
  relevance := .str "RELEVANT"
  relevance_explanation := .str "ok"
  model_used := "openai/gpt-4o"
  prompt_tokens := 100
  completion_tokens := 20
  total_tokens := 120
  eval_prompt_tokens := 9
  eval_completion_tokens := 4
  eval_total_tokens := 13
  openai_cost := calculate_openai_cost "openai/gpt-4o" ⟨100, 20, 120⟩

/-- A well-formed retrieved record. -/
def sampleRec : NutritionRecord :=
  ⟨"Apple", "1 medium", "182", "95", "0.5", "0.3", "0.1", "4.4", "25",
    "Fruits", "1"⟩

/-- A record whose Category value is a single space character. -/
def spaceCatRec : NutritionRecord :=
  ⟨"Apple", "1 medium", "182", "95", "0.5", "0.3", "0.1", "4.4", "25",
    " ", "1"⟩

/-! ### Claims -/

/-- Claim C2: whenever the judge response fails to parse as JSON (for
example the response `not json`), `evaluate_relevance` returns verdict
`UNKNOWN`, the fixed explanation `Failed to parse evaluation`, and the
token counts of the failed call, without raising. -/
theorem evaluate_relevance_parse_failure (env : Env) (question answer : String)
    (h : env.jsonLoads (llm env (judgePrompt question answer) "openai/gpt-4o-mini").1 =
      .error ()) :
    evaluate_relevance env question answer =
      .ok (.str "UNKNOWN", .str "Failed to parse evaluation",
        (llm env (judgePrompt question answer) "openai/gpt-4o-mini").2.1) := by
  simp only [evaluate_relevance]
  rw [h]

/-- Witness for C2 at the environment whose judge says `not json`. -/
theorem evaluate_relevance_parse_failure_witness :
    evaluate_relevance envParseFail "a question" "an answer" =
      .ok (.str "UNKNOWN", .str "Failed to parse evaluation", ⟨25, 7, 32⟩) := by
  rw [evaluate_relevance_parse_failure envParseFail "a question" "an answer" rfl]
  rfl

/-- Counterexample to claim C1 as stated: on the judge response `\x7b\x7d` —
valid JSON, but missing the key `Relevance` — `evaluate_relevance` does
not return the `UNKNOWN` verdict: the failed dict lookup raises a
`KeyError` that propagates to the caller. -/
theorem evaluate_relevance_missing_key_cex :
    evaluate_relevance envEmptyObj "a question" "an answer" =
      .error (.keyError "Relevance") ∧
    ∀ out, evaluate_relevance envEmptyObj "a question" "an answer" ≠ .ok out := by
  have h0 : evaluate_relevance envEmptyObj "a question" "an answer" =
      .error (.keyError "Relevance") := rfl
  refine ⟨h0, fun out hout => ?_⟩
  rw [h0] at hout
  exact Except.noConfusion hout

/-- Claim C1 (amended): a judge response that is valid JSON but missing an
expected key (`Relevance` or `Explanation`) is NOT recovered locally: the
key lookup fails and the resulting error propagates to the caller of
`evaluate_relevance`.  Only responses that are not valid JSON are
downgraded to the `UNKNOWN` verdict. -/
theorem evaluate_relevance_missing_key_propagates (env : Env)
    (question answer : String) (j : PyJson) (e : PyErr)
    (hp : env.jsonLoads (llm env (judgePrompt question answer) "openai/gpt-4o-mini").1 =
      .ok j) :
    (j.getItem "Relevance" = .error e →
      evaluate_relevance env question answer = .error e) ∧
    (∀ rel, j.getItem "Relevance" = .ok rel → j.getItem "Explanation" = .error e →
      evaluate_relevance env question answer = .error e) := by
  constructor
  · intro h1
    simp only [evaluate_relevance, hp, h1]
  · intro rel h1 h2
    simp only [evaluate_relevance, hp, h1, h2]

/-- Witness for the amended C1 at the empty-JSON-object environment. -/
theorem evaluate_relevance_missing_key_witness :
    evaluate_relevance envEmptyObj "q" "a" = .error (.keyError "Relevance") :=
  (evaluate_relevance_missing_key_propagates envEmptyObj "q" "a" (.obj [])
    (.keyError "Relevance") rfl).1 rfl

/-- Claim C3: for every model identifier in the rate table,
`calculate_openai_cost` is monotonically non-decreasing in the prompt and
completion token counts; for every identifier absent from the table it is
exactly 0 whatever the token counts. -/
theorem calculate_openai_cost_monotone_unknown_zero :
    (∀ m ∈ knownModels, ∀ t t' : Tokens,
      t.prompt_tokens ≤ t'.prompt_tokens →
      t.completion_tokens ≤ t'.completion_tokens →
      calculate_openai_cost m t ≤ calculate_openai_cost m t') ∧
    (∀ m, m ∉ knownModels → ∀ t, calculate_openai_cost m t = 0) := by
  have key : ∀ (rp rc : ℚ), 0 ≤ rp → 0 ≤ rc → ∀ {p p' c c' : ℕ}, p ≤ p' →
      c ≤ c' → ((p : ℚ) * rp + (c : ℚ) * rc) / 1000 ≤
        ((p' : ℚ) * rp + (c' : ℚ) * rc) / 1000 := by
    intro rp rc hrp hrc p p' c c' hp hc
    have h1 : (p : ℚ) ≤ (p' : ℚ) := by exact_mod_cast hp
    have h2 : (c : ℚ) ≤ (c' : ℚ) := by exact_mod_cast hc
    rw [div_le_div_iff_of_pos_right (by norm_num : (0 : ℚ) < 1000)]
    exact add_le_add (mul_le_mul_of_nonneg_right h1 hrp)
      (mul_le_mul_of_nonneg_right h2 hrc)
  constructor
  · intro m hm t t' hp hc
    simp only [knownModels, List.mem_cons, List.not_mem_nil, or_false] at hm
    rcases hm with h | h | h <;> subst h <;>
      simp only [calculate_openai_cost, String.reduceEq, true_or, or_true,
        false_or, or_false, reduceIte] <;>
      exact key _ _ (by norm_num) (by norm_num) hp hc
  · intro m hm t
    simp only [knownModels, List.mem_cons, List.not_mem_nil, or_false,
      not_or] at hm
    simp only [calculate_openai_cost, if_neg hm.1, if_neg (not_or.mpr hm.2)]

/-- Witness for C3: monotonicity at `openai/gpt-4o` between telescoping
token counts, and cost 0 for the unknown identifier `gpt-5`. -/
theorem calculate_openai_cost_monotone_unknown_zero_witness :
    calculate_openai_cost "openai/gpt-4o" ⟨1, 1, 2⟩ ≤
      calculate_openai_cost "openai/gpt-4o" ⟨2, 3, 5⟩ ∧
    calculate_openai_cost "gpt-5" ⟨5, 7, 12⟩ = 0 :=
  ⟨calculate_openai_cost_monotone_unknown_zero.1 "openai/gpt-4o" (by decide)
      ⟨1, 1, 2⟩ ⟨2, 3, 5⟩ (by decide) (by decide),
    calculate_openai_cost_monotone_unknown_zero.2 "gpt-5" (by decide) ⟨5, 7, 12⟩⟩

set_option maxRecDepth 40000 in
set_option exponentiation.threshold 2000 in
/-- Counterexample to claim C4 as stated: under Python's binary64 float
arithmetic the cost for `openai/gpt-4o` at 100 prompt and 20 completion
tokens is NOT exactly 0.0042 — neither equal to the double denoted by the
literal `0.0042` (so the program's `cost == 0.0042` is `False`) nor to
the exact rational 0.0042. -/
theorem calculate_openai_cost64_cex :
    calculate_openai_cost64 "openai/gpt-4o" ⟨100, 20, 120⟩ ≠ d0042 ∧
    fpVal (calculate_openai_cost64 "openai/gpt-4o" ⟨100, 20, 120⟩) ≠
      (0.0042 : ℚ) := by
  constructor
  · decide
  · have hv : calculate_openai_cost64 "openai/gpt-4o" ⟨100, 20, 120⟩ =
        (4842270319348758, -60) := by decide
    rw [hv]
    intro h
    rw [show fpVal (4842270319348758, -60) =
        (4842270319348758 : ℚ) / 2 ^ 60 from rfl] at h
    norm_num at h

set_option maxRecDepth 40000 in
set_option exponentiation.threshold 2000 in
/-- Claim C4 (amended): for each identifier in the rate table the cost is
the IEEE-754 binary64 evaluation of
`(prompt_tokens * inputRate + completion_tokens * outputRate) / 1000`
with that identifier's rate pair; for the model with rates 0.03/0.06 and
token counts 100/20 the result is the double `4842270319348758 * 2 ^ (-60)`
(≈ 0.004200000000000001) — one unit in the last place above the double
nearest 0.0042, hence not exactly 0.0042. -/
theorem calculate_openai_cost64_value :
    (∀ t : Tokens, calculate_openai_cost64 "openai/gpt-3.5-turbo" t =
      divFP (addFP (mulFP (fpOfNat t.prompt_tokens) d0015)
        (mulFP (fpOfNat t.completion_tokens) d002)) d1000) ∧
    (∀ t : Tokens, calculate_openai_cost64 "openai/gpt-4o" t =
      divFP (addFP (mulFP (fpOfNat t.prompt_tokens) d003)
        (mulFP (fpOfNat t.completion_tokens) d006)) d1000) ∧
    (∀ t : Tokens, calculate_openai_cost64 "openai/gpt-4o-mini" t =
      divFP (addFP (mulFP (fpOfNat t.prompt_tokens) d003)
        (mulFP (fpOfNat t.completion_tokens) d006)) d1000) ∧
    calculate_openai_cost64 "openai/gpt-4o" ⟨100, 20, 120⟩ =
      (4842270319348758, -60) ∧
    d0042 = (4842270319348757, -60) ∧
    fpVal (4842270319348758, -60) = 4842270319348758 / 2 ^ 60 := by
  refine ⟨fun t => ?_, fun t => ?_, fun t => ?_, by decide, by decide, rfl⟩ <;>
    simp only [calculate_openai_cost64, String.reduceEq, true_or, or_true,
      false_or, or_false, reduceIte]

/-- Claim C7: the `knn` clause constructed by `elastic_search_knn` always
has `k = 5`, `num_candidates = 10000`, and the filter term
`{Category: category}`, and the search body sent to the index consists of
exactly this clause plus the `_source` projection. -/
theorem elastic_search_knn_request (field : String) (vector : List ℚ)
    (category : String) :
    (knnClause field vector category).k = 5 ∧
    (knnClause field vector category).num_candidates = 10000 ∧
    (knnClause field vector category).filter = ⟨"Category", category⟩ ∧
    ∀ env idx, elastic_search_knn env field vector category idx =
      env.esSearch idx (.knn (knnClause field vector category) knnSourceFields) :=
  ⟨rfl, rfl, rfl, fun _ _ => rfl⟩

/-- Claim C9: `get_answer` retrieves with vector search exactly when the
`search_type` argument is the string `Vector`; any other string (including
`Keyword` and `vector`) silently falls through to keyword search, with no
error path. -/
theorem get_answer_search_branch (env : Env)
    (query category model_choice search_type : String) :
    get_answer env query category model_choice search_type =
      answer_pipeline env query model_choice
        (retrieved env query category search_type) ∧
    (search_type = "Vector" →
      retrieved env query category search_type =
        elastic_search_knn env "full_vector" (env.encode query) category) ∧
    (search_type ≠ "Vector" →
      retrieved env query category search_type =
        elastic_search_text env query category) := by
  refine ⟨rfl, fun h => ?_, fun h => ?_⟩
  · rw [retrieved, if_pos h]
  · rw [retrieved, if_neg h]

/-- `pySplit` never produces the empty list of segments. -/
theorem pySplit_ne_nil (sep : Char) (l : List Char) : pySplit sep l ≠ [] := by
  induction l with
  | nil => simp [pySplit]
  | cons c rest ih =>
    unfold pySplit
    rcases h : pySplit sep rest with _ | ⟨seg, segs⟩
    · simp
    · by_cases hc : c = sep <;> simp [hc]

/-- Splitting a separator-free string yields a single segment. -/
theorem pySplit_no_sep (sep : Char) (l : List Char) (h : sep ∉ l) :
    pySplit sep l = [l] := by
  induction l with
  | nil => rfl
  | cons c rest ih =>
    have hc : c ≠ sep := fun e => h (e ▸ List.mem_cons_self c rest)
    have hr : sep ∉ rest := fun m => h (List.mem_cons_of_mem _ m)
    simp [pySplit, ih hr, hc]

/-- A list containing the separator splits into at least two segments. -/
theorem two_le_length_pySplit (sep : Char) (l : List Char) (h : sep ∈ l) :
    2 ≤ (pySplit sep l).length := by
  induction l with
  | nil => exact absurd h (List.not_mem_nil sep)
  | cons c rest ih =>
    unfold pySplit
    rcases hr : pySplit sep rest with _ | ⟨seg, segs⟩
    · exact absurd hr (pySplit_ne_nil sep rest)
    · by_cases hc : c = sep
      · simp [hc]
      · have hmem : sep ∈ rest := by
          rcases List.mem_cons.mp h with he | hm
          · exact absurd he.symm hc
          · exact hm
        have := ih hmem
        rw [hr] at this
        simp only [hc, reduceIte, List.length_cons] at this ⊢
        omega

/-- The defining step of `pySplit` on a cons cell. -/
theorem pySplit_cons (sep c : Char) (rest : List Char) :
    pySplit sep (c :: rest) =
      match pySplit sep rest with
      | [] => [[]]
      | seg :: segs =>
          if c = sep then [] :: seg :: segs else (c :: seg) :: segs := rfl

/-- The last segment of a split only depends on the text after the last
separator occurrence. -/
theorem pySplit_append_getLast? (sep : Char) (l₁ l₂ : List Char) :
    (pySplit sep (l₁ ++ sep :: l₂)).getLast? = (pySplit sep l₂).getLast? := by
  induction l₁ with
  | nil =>
    simp only [List.nil_append]
    rcases h : pySplit sep l₂ with _ | ⟨seg, segs⟩
    · exact absurd h (pySplit_ne_nil sep l₂)
    · have hstep : pySplit sep (sep :: l₂) = [] :: seg :: segs := by
        rw [pySplit_cons, h]
        simp
      rw [hstep]
      simp
  | cons c l₁ ih =>
    simp only [List.cons_append]
    rcases h : pySplit sep (l₁ ++ sep :: l₂) with _ | ⟨seg, segs⟩
    · exact absurd h (pySplit_ne_nil _ _)
    · have hlen : 2 ≤ (pySplit sep (l₁ ++ sep :: l₂)).length :=
        two_le_length_pySplit sep _ (by simp)
      rw [h] at hlen
      rcases segs with _ | ⟨s₂, srest⟩
      · simp at hlen
      · have hstep : pySplit sep (c :: (l₁ ++ sep :: l₂)) =
            if c = sep then [] :: seg :: s₂ :: srest
            else (c :: seg) :: s₂ :: srest := by
          rw [pySplit_cons, h]
        rw [hstep, ← ih, h]
        by_cases hc : c = sep <;> simp [hc]

/-- `model_choice.split('/')[-1]` on a provider-qualified identifier whose
trailing segment is slash-free is that trailing segment. -/
theorem lastSegment_qualified (pre post : String) (h : '/' ∉ post.data) :
    lastSegment (pre ++ "/" ++ post) = post := by
  unfold lastSegment
  have hdata : (pre ++ "/" ++ post).data = pre.data ++ '/' :: post.data := by
    simp [String.data_append]
  rw [hdata]
  have hlast := pySplit_append_getLast? '/' pre.data post.data
  rw [pySplit_no_sep '/' post.data h] at hlast
  simp only [List.getLast?_singleton] at hlast
  rw [List.getLast!_of_getLast? hlast]

/-- The openai_cost field of a successful `answer_pipeline` run is
`calculate_openai_cost` applied to the full model identifier and the
usage counters of the answer-generation chat call. -/
theorem answer_pipeline_cost (env : Env) (query model_choice : String)
    (results : List NutritionRecord) (r : AnswerReport)
    (h : answer_pipeline env query model_choice results = .ok r) :
    r.openai_cost = calculate_openai_cost model_choice
      (env.chat (chatRequest (build_prompt query results) model_choice)).usage := by
  simp only [answer_pipeline, llm] at h
  rcases he : evaluate_relevance env query
      (env.chat (chatRequest (build_prompt query results) model_choice)).content with
    e | ⟨rel, expl, et⟩
  · rw [he] at h
    exact absurd h (by simp)
  · rw [he] at h
    simp only [Except.ok.injEq] at h
    rw [← h]

/-- Claim C8: the chat request built by `llm` carries only the trailing
segment of the provider-qualified model identifier (the part after the
last `/`) as the API model name, together with a single user message
holding the prompt; the cost-table lookup, by contrast, is keyed on the
full identifier — the slash-free trailing segment alone is not in the
table (cost 0), while a successful pipeline run prices its generation
tokens by the full identifier. -/
theorem llm_model_segment_cost_key (pre post prompt : String)
    (h : '/' ∉ post.data) :
    (chatRequest prompt (pre ++ "/" ++ post)).model = post ∧
    (chatRequest prompt (pre ++ "/" ++ post)).messages = [⟨"user", prompt⟩] ∧
    (∀ t : Tokens, calculate_openai_cost post t = 0) ∧
    (∀ env query results r,
      answer_pipeline env query (pre ++ "/" ++ post) results = .ok r →
      r.openai_cost = calculate_openai_cost (pre ++ "/" ++ post)
        (env.chat (chatRequest (build_prompt query results)
          (pre ++ "/" ++ post))).usage) := by
  refine ⟨lastSegment_qualified pre post h, rfl, fun t => ?_,
    fun env query results r hr => answer_pipeline_cost env query _ results r hr⟩
  have h1 : post ≠ "openai/gpt-3.5-turbo" := fun e => by
    rw [e] at h
    exact h (by decide)
  have h2 : post ≠ "openai/gpt-4o" := fun e => by
    rw [e] at h
    exact h (by decide)
  have h3 : post ≠ "openai/gpt-4o-mini" := fun e => by
    rw [e] at h
    exact h (by decide)
  simp only [calculate_openai_cost, if_neg h1, if_neg (not_or.mpr ⟨h2, h3⟩)]

/-- Witness for C8 at `openai/gpt-4o` and a happy-path pipeline run. -/
theorem llm_model_segment_cost_key_witness :
    (chatRequest "p" ("openai" ++ "/" ++ "gpt-4o")).model = "gpt-4o" ∧
    (chatRequest "p" ("openai" ++ "/" ++ "gpt-4o")).messages = [⟨"user", "p"⟩] ∧
    calculate_openai_cost "gpt-4o" ⟨100, 20, 120⟩ = 0 := by
  have main := llm_model_segment_cost_key "openai" "gpt-4o" "p" (by decide)
  exact ⟨main.1, main.2.1, main.2.2.1 ⟨100, 20, 120⟩⟩

/-- `str.strip()` never removes characters after the leading run: dropping
leading whitespace is the identity on strings opening with the prompt
preamble (which starts with the letter Y). -/
theorem dropWhile_promptPre_append (l : List Char) :
    List.dropWhile isPySpace (promptPre.data ++ l) = promptPre.data ++ l := by
  have h : promptPre.data = 'Y' :: promptPre.data.tail := rfl
  rw [h, List.cons_append, List.dropWhile_cons_of_neg (by decide)]

/-- Trailing `str.strip()` on a string ending with the fixed
`\n\nCONTEXT: \n` segment removes exactly the final space and newline. -/
theorem backStrip_mid (A : List Char) :
    (List.dropWhile isPySpace ((A ++ promptMid.data).reverse)).reverse =
      A ++ ("\n\nCONTEXT:").data := by
  rw [List.reverse_append]
  have h1 : promptMid.data.reverse =
      '\n' :: ' ' :: (("\n\nCONTEXT:").data).reverse := rfl
  rw [h1, List.cons_append, List.cons_append,
    List.dropWhile_cons_of_pos (by decide),
    List.dropWhile_cons_of_pos (by decide)]
  have h2 : (("\n\nCONTEXT:").data).reverse = ':' :: (("\n\nCONTEXT").data).reverse := rfl
  rw [h2, List.cons_append, List.dropWhile_cons_of_neg (by decide),
    ← List.cons_append, ← h2, List.reverse_append, List.reverse_reverse,
    List.reverse_reverse]

/-- `str.strip()` is the identity when the string starts with the preamble
and ends with a non-whitespace character. -/
theorem stripChars_pre_append (l : List Char) (c : Char)
    (hc : isPySpace c = false) :
    stripChars (promptPre.data ++ (l ++ [c])) = promptPre.data ++ (l ++ [c]) := by
  rw [stripChars, dropWhile_promptPre_append]
  have hassoc : promptPre.data ++ (l ++ [c]) = (promptPre.data ++ l) ++ [c] := by
    rw [List.append_assoc]
  rw [hassoc, List.reverse_append]
  simp only [List.reverse_cons, List.reverse_nil, List.nil_append,
    List.singleton_append]
  rw [List.dropWhile_cons_of_neg (by simp [hc])]
  simp [List.reverse_cons, List.reverse_reverse]

/-- The characters of the Python join agree with `List.intercalate` of the
characters. -/
theorem joinContext_data (L : List String) :
    (joinContext L).data =
      List.intercalate ("\n\n").data (L.map String.data) := by
  induction L with
  | nil => rfl
  | cons a rest ih =>
    cases rest with
    | nil => simp [joinContext, List.intercalate]
    | cons b t =>
      show (a ++ "\n\n" ++ joinContext (b :: t)).data = _
      rw [String.data_append, String.data_append, ih]
      simp [List.intercalate, List.append_assoc]

/-- The join of a block list ending in `b` ends in `b`. -/
theorem joinContext_concat_suffix (L : List String) (b : String) :
    ∃ r, (joinContext (L ++ [b])).data = r ++ b.data := by
  induction L with
  | nil => exact ⟨[], rfl⟩
  | cons a rest ih =>
    rcases ih with ⟨r, hr⟩
    cases rest with
    | nil =>
      refine ⟨a.data ++ ("\n\n").data, ?_⟩
      show (a ++ "\n\n" ++ b).data = _
      simp [String.data_append]
    | cons d ds =>
      refine ⟨a.data ++ ("\n\n").data ++ r, ?_⟩
      show (a ++ "\n\n" ++ joinContext ((d :: ds) ++ [b])).data = _
      rw [String.data_append, String.data_append, hr]
      simp [List.append_assoc]

/-- Claim C6: `build_prompt` on an empty record sequence succeeds and its
context section is the empty string: the result is exactly the preamble,
the question, and a bare `CONTEXT:` header with nothing after it. -/
theorem build_prompt_empty (query : String) :
    build_prompt query [] = promptPre ++ query ++ "\n\nCONTEXT:" ∧
    joinContext (([] : List NutritionRecord).map docBlock) = "" := by
  refine ⟨?_, rfl⟩
  apply String.ext
  show stripChars
    ((promptPre ++ query ++ promptMid ++
      joinContext (([] : List NutritionRecord).map docBlock)).data) = _
  have hdata : (promptPre ++ query ++ promptMid ++
      joinContext (([] : List NutritionRecord).map docBlock)).data =
      promptPre.data ++ (query.data ++ promptMid.data) := by
    show (promptPre ++ query ++ promptMid ++ "").data = _
    simp [String.data_append]
  rw [hdata, stripChars, dropWhile_promptPre_append]
  have hassoc : promptPre.data ++ (query.data ++ promptMid.data) =
      (promptPre.data ++ query.data) ++ promptMid.data := by
    rw [List.append_assoc]
  rw [hassoc, backStrip_mid]
  simp [String.data_append, List.append_assoc]

/-- Claim C10: the `openai_cost` field of a successful `get_answer` run is
computed solely from the answer-generation call's usage counters and the
caller-supplied model identifier: it equals `calculate_openai_cost` at the
generation request's response usage, and any environment that agrees on
retrieval and on the generation request's response — whatever its judge
call returns in token counts — yields the same cost. -/
theorem get_answer_cost_from_generation (env : Env)
    (query category model_choice search_type : String) (r : AnswerReport)
    (h : get_answer env query category model_choice search_type = .ok r) :
    r.openai_cost = calculate_openai_cost model_choice
      (env.chat (genRequest env query category model_choice search_type)).usage ∧
    ∀ env' r', env'.esSearch = env.esSearch → env'.encode = env.encode →
      env'.chat (genRequest env query category model_choice search_type) =
        env.chat (genRequest env query category model_choice search_type) →
      get_answer env' query category model_choice search_type = .ok r' →
      r'.openai_cost = r.openai_cost := by
  have h1 := answer_pipeline_cost env query model_choice
    (retrieved env query category search_type) r h
  refine ⟨h1, fun env' r' hs he hc h' => ?_⟩
  have hret : retrieved env' query category search_type =
      retrieved env query category search_type := by
    simp only [retrieved, elastic_search_knn, elastic_search_text, hs, he]
  have h2 := answer_pipeline_cost env' query model_choice
    (retrieved env' query category search_type) r' h'
  have hreq : chatRequest
      (build_prompt query (retrieved env' query category search_type))
      model_choice = genRequest env query category model_choice search_type := by
    rw [genRequest, hret]
  rw [h2, h1, hreq, hc]
  rfl

/-- Witness for C10 at the happy-path environment. -/
theorem get_answer_cost_from_generation_witness :
    reportHappy.openai_cost = calculate_openai_cost "openai/gpt-4o"
      (envHappy.chat
        (genRequest envHappy "q" "Fruits" "openai/gpt-4o" "Keyword")).usage :=
  (get_answer_cost_from_generation envHappy "q" "Fruits" "openai/gpt-4o"
    "Keyword" reportHappy (by rfl)).1

/-- Witness for C9: `Vector` selects knn search while the lowercase
`vector` falls through to keyword search. -/
theorem get_answer_search_branch_witness :
    retrieved envPlain "q" "Fruits" "Vector" =
      elastic_search_knn envPlain "full_vector" (envPlain.encode "q") "Fruits" ∧
    retrieved envPlain "q" "Fruits" "vector" =
      elastic_search_text envPlain "q" "Fruits" :=
  ⟨(get_answer_search_branch envPlain "q" "Fruits" "m" "Vector").2.1 rfl,
    (get_answer_search_branch envPlain "q" "Fruits" "m" "vector").2.2 (by decide)⟩

/-- Claim C5 (amended): for every question and non-empty record sequence
whose final record's Category value ends in a non-whitespace character,
the built prompt contains the literal question text and ends with exactly
one rendered block per input record, blank-line separated, in input order.
(The proviso is forced by the final `.strip()` of `build_prompt`, which
may otherwise truncate trailing whitespace of the last block; see the
counterexample.) -/
theorem build_prompt_blocks (query : String) (records : List NutritionRecord)
    (hne : records ≠ []) (c : Char)
    (hcat : (records.getLast hne).Category.data.getLast? = some c)
    (hc : isPySpace c = false) :
    query.data <:+: (build_prompt query records).data ∧
    (∃ p, (build_prompt query records).data =
      p ++ List.intercalate ("\n\n").data
        (records.map fun d => (docBlock d).data)) ∧
    (records.map docBlock).length = records.length := by
  obtain ⟨cys, hcys⟩ := List.getLast?_eq_some_iff.1 hcat
  have hblock : (docBlock (records.getLast hne)).data =
      ("Food: " ++ (records.getLast hne).Food ++ "\n" ++ "Measure: " ++
        (records.getLast hne).Measure ++ "\n" ++ "Nutritional Facts:\n" ++
        "- Calories: " ++ (records.getLast hne).Calories ++ "\n" ++
        "- Protein: " ++ (records.getLast hne).Protein ++ "g\n" ++
        "- Fat: " ++ (records.getLast hne).Fat ++ "g\n" ++
        "- Saturated Fat: " ++ (records.getLast hne).SatFat ++ "g\n" ++
        "- Fiber: " ++ (records.getLast hne).Fiber ++ "g\n" ++
        "- Carbs: " ++ (records.getLast hne).Carbs ++ "g\n" ++
        "Category: ").data ++ (records.getLast hne).Category.data :=
    String.data_append _ _
  have hbtail : ∃ xb, (docBlock (records.getLast hne)).data = xb ++ [c] := by
    rw [hblock, hcys]
    exact ⟨_, (List.append_assoc _ cys [c]).symm⟩
  have hsplit : records = records.dropLast ++ [records.getLast hne] :=
    (List.dropLast_append_getLast hne).symm
  have hmap : records.map docBlock =
      (records.dropLast.map docBlock) ++ [docBlock (records.getLast hne)] := by
    conv_lhs => rw [hsplit]
    simp
  obtain ⟨r, hr⟩ := joinContext_concat_suffix (records.dropLast.map docBlock)
    (docBlock (records.getLast hne))
  have hctail : ∃ R, (joinContext (records.map docBlock)).data = R ++ [c] := by
    obtain ⟨xb, hxb⟩ := hbtail
    refine ⟨r ++ xb, ?_⟩
    rw [hmap, hr, hxb, List.append_assoc]
  obtain ⟨R, hR⟩ := hctail
  have hfull : (build_prompt query records).data =
      promptPre.data ++ (query.data ++ (promptMid.data ++
        (joinContext (records.map docBlock)).data)) := by
    show stripChars ((promptPre ++ query ++ promptMid ++
      joinContext (records.map docBlock)).data) = _
    have hdata : (promptPre ++ query ++ promptMid ++
        joinContext (records.map docBlock)).data =
        promptPre.data ++ (query.data ++ (promptMid.data ++
          (joinContext (records.map docBlock)).data)) := by
      simp [String.data_append]
    rw [hdata]
    have hrestruct : query.data ++ (promptMid.data ++
        (joinContext (records.map docBlock)).data) =
        (query.data ++ promptMid.data ++ R) ++ [c] := by
      rw [hR]
      simp [List.append_assoc]
    rw [hrestruct, stripChars_pre_append _ c hc, ← hrestruct]
  refine ⟨⟨promptPre.data, promptMid.data ++
      (joinContext (records.map docBlock)).data, ?_⟩,
    ⟨promptPre.data ++ query.data ++ promptMid.data, ?_⟩,
    List.length_map _ _⟩
  · rw [hfull]
    simp [List.append_assoc]
  · rw [hfull, show List.intercalate ("\n\n").data
      (records.map fun d => (docBlock d).data) =
      (joinContext (records.map docBlock)).data from by
        rw [joinContext_data, List.map_map]
        rfl]
    simp [List.append_assoc]

set_option maxRecDepth 8000 in
/-- Witness for the amended C5: one Apple record, Category `Fruits`. -/
theorem build_prompt_blocks_witness :
    "How many calories?".data <:+:
      (build_prompt "How many calories?" [sampleRec]).data ∧
    (∃ p, (build_prompt "How many calories?" [sampleRec]).data =
      p ++ List.intercalate ("\n\n").data
        ([sampleRec].map fun d => (docBlock d).data)) ∧
    ([sampleRec].map docBlock).length = [sampleRec].length :=
  build_prompt_blocks "How many calories?" [sampleRec] (by decide) 's' rfl
    (by decide)

set_option maxRecDepth 100000 in
set_option maxHeartbeats 2000000 in
/-- Counterexample to claim C5 as stated: with a record whose Category is
a single space, the final `.strip()` of `build_prompt` truncates the
trailing whitespace of the last rendered block, so the rendered block is
not contained in the output. -/
theorem build_prompt_blocks_cex :
    ¬ ((docBlock spaceCatRec).data <:+:
      (build_prompt "q" [spaceCatRec]).data) := by
  decide

end NutriChat
